import Mathlib

/-!
Shallow embedding of the RAG streaming chat backend
(`backend/app/engine/workflow.py`, `backend/app/engine/__init__.py`,
`backend/app/api/routers/chat.py`).

External collaborators (the retriever, the language model's chunk stream and
the token counter) are passed in as function parameters; everything written in
the repository itself is translated definition by definition.
-/

namespace RagStream

/-- Message roles, from `llama_index.core.llms.MessageRole` (only the members
the code mentions are needed; the others are carried for faithfulness of the
request type). -/
inductive MessageRole
  | system
  | user
  | assistant
  | function
  | tool
deriving DecidableEq, Repr

/-- `llama_index.core.llms.ChatMessage`: a role plus text content. -/
structure ChatMessage where
  role : MessageRole
  content : String
deriving DecidableEq, Repr

/-- Type tag of a `ProgressEvent` (`Literal["data", "text"]` in
`workflow.py`). -/
inductive PType
  | data
  | text
deriving DecidableEq, Repr

/-- Status tag of a `ProgressEvent` (`Literal["loading", "done"]` in
`workflow.py`). -/
inductive PStatus
  | loading
  | done
deriving DecidableEq, Repr

/-- `ProgressEvent` from `workflow.py`: fields in source declaration order
(`type`, `status`, `message`). -/
structure ProgressEvent where
  type : PType
  status : PStatus
  message : String
deriving DecidableEq, Repr

/-- The string name of a progress-event type, as pydantic serializes it. -/
def pTypeStr : PType → String
  | .data => "data"
  | .text => "text"

/-- The string name of a progress-event status, as pydantic serializes it. -/
def pStatusStr : PStatus → String
  | .loading => "loading"
  | .done => "done"

/-- `NodeWithScore` as the workflow uses it: the only field the code reads is
the node content (`n.node.get_content(metadata_mode="none")`); score and
metadata are never consulted. -/
structure NodeWithScore where
  content : String
deriving DecidableEq, Repr

/-- `RetrieveEvent` from `workflow.py`. -/
structure RetrieveEvent where
  query : String
deriving DecidableEq, Repr

/-- `PostProcessEvent` from `workflow.py`. -/
structure PostProcessEvent where
  query : String
  nodes : List NodeWithScore
deriving DecidableEq, Repr

/-- `SynthesizeEvent` from `workflow.py`. -/
structure SynthesizeEvent where
  query : String
  nodes : List NodeWithScore
deriving DecidableEq, Repr

/-- `StartEvent` as `setup` reads it: `ev.get("query")` and
`ev.get("messages")` each return `None` when the key is missing. -/
structure StartEvent where
  query : Option String
  messages : Option (List ChatMessage)
deriving DecidableEq, Repr

/-- One element of the language model's streamed chat response
(`llama_index` `ChatResponse`): `delta` is the incremental text,
`message` the accumulated assistant message so far. -/
structure ChatResponseChunk where
  delta : String
  message : ChatMessage
deriving DecidableEq, Repr

/-- The dict returned inside the `StopEvent` of `synthesize`. -/
structure StopResult where
  query : String
  messages : List ChatMessage
  response : String
  source_nodes : List NodeWithScore
deriving DecidableEq, Repr

/-- The default `CONTEXT_PROMPT` template from `workflow.py`. -/
def CONTEXT_PROMPT : String :=
  "Here is some extra context from a knowledge base that may help you assist the user with their latest message.\n" ++
  "If you don't know the answer, just say so. Don't try to make up an answer." ++
  "\n-----\n\x7bcontext\x7d\n-----\n" ++
  "Latest message: \x7bmessage\x7d"

/-- Whether `pat` is a leading run of `s` (on character lists). -/
def startsWithL : List Char → List Char → Bool
  | [], _ => true
  | _ :: _, [] => false
  | p :: ps, c :: cs => p == c && startsWithL ps cs

/-- One left-to-right scan of the template, substituting the two named
fields of Python `str.format` as used by the code: each occurrence of
`\x7bcontext\x7d` becomes `ctx` and each occurrence of `\x7bmessage\x7d`
becomes `msg`; substituted text is not rescanned.  `fuel` bounds the scan
and is instantiated with the template's length, which every step strictly
decreases. -/
def formatL (ctx msg : List Char) : Nat → List Char → List Char
  | 0, s => s
  | _ + 1, [] => []
  | fuel + 1, c :: cs =>
    if startsWithL "\x7bcontext\x7d".toList (c :: cs) then
      ctx ++ formatL ctx msg fuel (List.drop "\x7bcontext\x7d".toList.length (c :: cs))
    else if startsWithL "\x7bmessage\x7d".toList (c :: cs) then
      msg ++ formatL ctx msg fuel (List.drop "\x7bmessage\x7d".toList.length (c :: cs))
    else
      c :: formatL ctx msg fuel cs

/-- Python `template.format(context=..., message=...)` on a template whose
substitution points are `\x7bcontext\x7d` and `\x7bmessage\x7d`. -/
def formatPrompt (template ctx msg : String) : String :=
  ⟨formatL ctx.toList msg.toList template.toList.length template.toList⟩

/-- Python truthiness of `self.system_prompt` (an `Optional[str]`): `None`
and the empty string are falsy. -/
def truthy : Option String → Bool
  | none => false
  | some s => !(s == "")

/-- The `setup` step of `ChatEngine`: validates that query and messages are
present (raising `ValueError` otherwise), seeds the memory buffer with the
supplied messages, and returns a `RetrieveEvent` carrying the query.  It
writes no event to the stream. -/
def setup (ev : StartEvent) : Except String (List ChatMessage × RetrieveEvent) :=
  match ev.query, ev.messages with
  | some q, some ms => .ok (ms, ⟨q⟩)
  | _, _ => .error "Query and messages are required!"

/-- The `retrieve` step of `ChatEngine`: emits a `data/loading` event, calls
the retriever (an external collaborator, passed as a function), and emits a
`data/done` event reporting the node count.  Returns the emitted events in
emission order together with the `PostProcessEvent`. -/
def retrieve (retriever : String → List NodeWithScore) (ev : RetrieveEvent) :
    List ProgressEvent × PostProcessEvent :=
  let nodes := retriever ev.query
  ([⟨.data, .loading, "Retrieving relevant nodes..."⟩,
    ⟨.data, .done, "Retrieved " ++ toString nodes.length ++ " relevant nodes for context."⟩],
   ⟨ev.query, nodes⟩)

/-- The `post_process` step of `ChatEngine`: a pass-through that emits no
events (the event emissions in the source are commented out). -/
def post_process (ev : PostProcessEvent) : List ProgressEvent × SynthesizeEvent :=
  ([], ⟨ev.query, ev.nodes⟩)

/-- The context-augmented user turn built in `synthesize`: node contents
joined with blank lines, substituted into the context-prompt template with
the query. -/
def contextQuery (contextPrompt : String) (ev : SynthesizeEvent) : String :=
  let context_str := String.intercalate "\n\n" (ev.nodes.map (·.content))
  formatPrompt contextPrompt context_str ev.query

/-- The chat history `synthesize` sends to the language model: the memory
buffer's history, then the context-augmented user turn appended, then a
system message prepended when `self.system_prompt` is truthy. -/
def historySent (systemPrompt : Option String) (contextPrompt : String)
    (memory : List ChatMessage) (ev : SynthesizeEvent) : List ChatMessage :=
  let chat_history := memory ++ [⟨.user, contextQuery contextPrompt ev⟩]
  if truthy systemPrompt then
    ⟨.system, systemPrompt.getD ""⟩ :: chat_history
  else
    chat_history

/-- The `synthesize` step of `ChatEngine`.  Emits `data/loading`, builds the
augmented chat history, obtains the model's chunk stream (external
collaborator `llmStream`), emits `data/done`, then one `text/loading` event
per chunk carrying the chunk's delta.  After the loop it builds the
`StopEvent` result from the leftover loop variable `chunk`: when the stream
yielded no chunk at all this read raises a `NameError`, modelled as the
error branch. -/
def synthesize (systemPrompt : Option String) (contextPrompt : String)
    (llmStream : List ChatMessage → List ChatResponseChunk)
    (memory : List ChatMessage) (ev : SynthesizeEvent) :
    List ProgressEvent × Except String StopResult :=
  let chat_history := historySent systemPrompt contextPrompt memory ev
  let chunks := llmStream chat_history
  let events : List ProgressEvent :=
    ⟨.data, .loading, "Synthesizing response..."⟩ ::
    ⟨.data, .done, "Finished creating response stream."⟩ ::
    chunks.map (fun c => ⟨.text, .loading, c.delta⟩)
  (events,
   match chunks.getLast? with
   | some chunk => .ok ⟨ev.query, chat_history, chunk.message.content, ev.nodes⟩
   | none => .error "NameError: name 'chunk' is not defined")

/-- A whole pipeline run: `setup`, `retrieve`, `post_process`, `synthesize`
in sequence, collecting the stream of progress events in emission order and
the final result (or the error that aborted the run). -/
def run (retriever : String → List NodeWithScore)
    (llmStream : List ChatMessage → List ChatResponseChunk)
    (systemPrompt : Option String) (contextPrompt : String)
    (start : StartEvent) : List ProgressEvent × Except String StopResult :=
  match setup start with
  | .error e => ([], .error e)
  | .ok (memory, rev) =>
    let p1 := retrieve retriever rev
    let p2 := post_process p1.2
    let p3 := synthesize systemPrompt contextPrompt llmStream memory p2.2
    (p1.1 ++ p2.1 ++ p3.1, p3.2)

/-! ## Transport layer (`chat.py`) -/

/-- The error raised by `fastapi.HTTPException`: status code and detail. -/
structure HTTPException where
  status_code : Nat
  detail : String
deriving DecidableEq, Repr

/-- The precondition / last-message handling of the `chat` endpoint: rejects
an empty message list with 400 "No messages provided", pops the last message
and rejects with 400 "Last message must be from user" unless its role is
`user`; otherwise returns the query (the popped message's content) and the
remaining history, the arguments of `chat_engine.run`. -/
def chat (messages : List ChatMessage) :
    Except HTTPException (String × List ChatMessage) :=
  match messages.getLast? with
  | none => .error ⟨400, "No messages provided"⟩
  | some lastMessage =>
    if lastMessage.role = .user then
      .ok (lastMessage.content, messages.dropLast)
    else
      .error ⟨400, "Last message must be from user"⟩

/-- The `chat` endpoint composed with the pipeline: on valid input it starts
the run with the popped query and the remaining history; on invalid input it
raises before the pipeline (and thus the retriever or the model) is touched. -/
def chatEndpoint (retriever : String → List NodeWithScore)
    (llmStream : List ChatMessage → List ChatResponseChunk)
    (systemPrompt : Option String) (contextPrompt : String)
    (messages : List ChatMessage) :
    Except HTTPException (List ProgressEvent × Except String StopResult) :=
  match chat messages with
  | .error e => .error e
  | .ok (query, history) =>
      .ok (run retriever llmStream systemPrompt contextPrompt
             ⟨some query, some history⟩)

/-- The `stream_part_types` dict from `chat.py`. -/
def stream_part_types : List (String × String) :=
  [("text", "0"),
   ("function_call", "1"),
   ("data", "2"),
   ("error", "3"),
   ("assistant_message", "4"),
   ("assistant_data_stream_part", "5"),
   ("data_stream_part", "6"),
   ("message_annotations_stream_part", "7")]

/-- Dict lookup `stream_part_types[key]` (the keys used by the code are
always present, so the `KeyError` default is never reached). -/
def streamPartType (key : String) : String :=
  ((stream_part_types.find? (·.1 == key)).map (·.2)).getD "KeyError"

/-- A hexadecimal digit, lower case, as `json.dumps` prints escapes. -/
def hexDigit (n : Nat) : Char :=
  if n < 10 then Char.ofNat (48 + n) else Char.ofNat (87 + n % 16)

/-- A `\uXXXX` escape of a 16-bit value. -/
def uEscape (n : Nat) : String :=
  "\\u" ++ String.mk [hexDigit (n / 4096 % 16), hexDigit (n / 256 % 16),
                      hexDigit (n / 16 % 16), hexDigit (n % 16)]

/-- How `json.dumps` (default `ensure_ascii=True`) escapes one character of a
string: the two-character escapes for quote, backslash and common control
characters, `\uXXXX` for other control and all non-ASCII characters (as a
surrogate pair above the BMP), the character itself otherwise. -/
def jsonEscapeChar (c : Char) : String :=
  if c = '"' then "\\\""
  else if c = '\\' then "\\\\"
  else if c = '\n' then "\\n"
  else if c = '\r' then "\\r"
  else if c = '\t' then "\\t"
  else if c = Char.ofNat 8 then "\\b"
  else if c = Char.ofNat 12 then "\\f"
  else if c.toNat < 32 then uEscape c.toNat
  else if c.toNat < 127 then String.mk [c]
  else if c.toNat < 65536 then uEscape c.toNat
  else uEscape (55296 + (c.toNat - 65536) / 1024) ++
       uEscape (56320 + (c.toNat - 65536) % 1024)

/-- `json.dumps` of a Python string. -/
def jsonDumpsString (s : String) : String :=
  "\"" ++ String.join (s.toList.map jsonEscapeChar) ++ "\""

/-- `json.dumps([event.model_dump()])`: a one-element JSON array holding the
event record, fields in pydantic declaration order (`type`, `status`,
`message`), with `json.dumps`'s default separators. -/
def jsonDumpsEventArray (e : ProgressEvent) : String :=
  "[\x7b\"type\": " ++ jsonDumpsString (pTypeStr e.type) ++
  ", \"status\": " ++ jsonDumpsString (pStatusStr e.status) ++
  ", \"message\": " ++ jsonDumpsString e.message ++ "\x7d]"

/-- An event drawn from `handler.stream_events()`: either a `ProgressEvent`
or some other workflow event (which the generator skips). -/
inductive StreamEvent
  | progress (e : ProgressEvent)
  | other (tag : String)
deriving DecidableEq, Repr

/-- The body of the generator's loop for one event: skip events that are not
`ProgressEvent`s; render a `text` event as `0:` plus the JSON-encoded
message; render any other progress event as its type code plus the
JSON-encoded one-element array of the full record. -/
def renderEvent : StreamEvent → Option String
  | .other _ => none
  | .progress e =>
    if e.type = .text then
      some (streamPartType (pTypeStr e.type) ++ ":" ++ jsonDumpsString e.message ++ "\n")
    else
      some (streamPartType (pTypeStr e.type) ++ ":" ++ jsonDumpsEventArray e ++ "\n")

/-- The `async for` loop of `event_generator`: `disconnected i` is the value
`await request.is_disconnected()` returns when polled in the iteration
handling the `i`-th event (the poll happens after the event is received and
before it is rendered); on `True` the loop breaks.  Returns the yielded
lines and whether the loop exited through `break`. -/
def genLoop (disconnected : Nat → Bool) :
    List StreamEvent → Nat → List String × Bool
  | [], _ => ([], false)
  | e :: rest, i =>
    if disconnected i then ([], true)
    else
      let tail := genLoop disconnected rest (i + 1)
      ((renderEvent e).toList ++ tail.1, tail.2)

/-- The final summary line: the `data` type code, a colon and the plain-text
(not JSON-encoded) message built from the token counts, where `est` models
`TokenCounter.estimate_tokens_in_messages` and `cnt` models
`TokenCounter.get_string_tokens` (external collaborators). -/
def summaryLine (est : List ChatMessage → Nat) (cnt : String → Nat)
    (fr : StopResult) : String :=
  streamPartType "data" ++ ":Input tokens: " ++ toString (est fr.messages) ++
    ", output tokens: " ++ toString (cnt fr.response) ++ "\n"

/-- The whole `event_generator`: drains the event stream (stopping early on
disconnect), then — in every case, because the code after the loop is not
guarded — awaits the handler's final result and yields the summary line.
Awaiting a failed handler re-raises its error, modelled by the `Except`. -/
def event_generator (disconnected : Nat → Bool) (events : List StreamEvent)
    (est : List ChatMessage → Nat) (cnt : String → Nat)
    (handlerResult : Except String StopResult) : Except String (List String) :=
  let lines := (genLoop disconnected events 0).1
  match handlerResult with
  | .error e => .error e
  | .ok fr => .ok (lines ++ [summaryLine est cnt fr])

/-! ## Theorems -/

/-- C3: a start event carrying a present query and present message history
makes `setup` succeed with a `RetrieveEvent` holding exactly that query (and
the memory seeded with that history); when either is missing, `setup` raises
the input error and the whole run aborts with that error having emitted no
progress event at all. -/
theorem setup_valid_or_missing :
    (∀ q ms, setup ⟨some q, some ms⟩ = .ok (ms, ⟨q⟩)) ∧
    (∀ sv : StartEvent, sv.query = none ∨ sv.messages = none →
      setup sv = .error "Query and messages are required!" ∧
      ∀ r l sp cp, run r l sp cp sv =
        ([], .error "Query and messages are required!")) := by
  refine ⟨fun q ms => rfl, fun sv h => ?_⟩
  obtain ⟨q, ms⟩ := sv
  rcases h with h | h <;> simp only at h <;> subst h
  · cases ms <;> exact ⟨rfl, fun r l sp cp => rfl⟩
  · cases q <;> exact ⟨rfl, fun r l sp cp => rfl⟩

/-- C3 witness: a start event with both fields missing fails as stated. -/
theorem setup_valid_or_missing_witness :
    setup ⟨none, none⟩ = .error "Query and messages are required!" ∧
    run (fun _ => []) (fun _ => []) none "" ⟨none, none⟩ =
      ([], .error "Query and messages are required!") :=
  ⟨(setup_valid_or_missing.2 ⟨none, none⟩ (Or.inl rfl)).1,
   (setup_valid_or_missing.2 ⟨none, none⟩ (Or.inl rfl)).2 _ _ _ _⟩

/-- C4: an empty message list, or a last message whose role is not `user`,
makes the endpoint raise HTTP 400 with the human-readable detail shown, and
the composed endpoint returns that same error for every retriever and model —
the pipeline run is never started. -/
theorem chat_rejects_invalid :
    ∀ (msgs : List ChatMessage) r l sp cp,
      (msgs = [] →
        chat msgs = .error ⟨400, "No messages provided"⟩ ∧
        chatEndpoint r l sp cp msgs = .error ⟨400, "No messages provided"⟩) ∧
      (∀ last, msgs.getLast? = some last → last.role ≠ .user →
        chat msgs = .error ⟨400, "Last message must be from user"⟩ ∧
        chatEndpoint r l sp cp msgs =
          .error ⟨400, "Last message must be from user"⟩) := by
  intro msgs r l sp cp
  constructor
  · rintro rfl
    exact ⟨rfl, rfl⟩
  · intro last hlast hrole
    have h1 : chat msgs = .error ⟨400, "Last message must be from user"⟩ := by
      simp [chat, hlast, hrole]
    exact ⟨h1, by simp [chatEndpoint, h1]⟩

/-- C4 witness: a one-message list ending in an assistant message is
rejected with the 400 error. -/
theorem chat_rejects_invalid_witness :
    chat [⟨.assistant, "nope"⟩] = .error ⟨400, "Last message must be from user"⟩ :=
  ((chat_rejects_invalid [⟨.assistant, "nope"⟩] (fun _ => []) (fun _ => [])
      none "").2 ⟨.assistant, "nope"⟩ rfl (by decide)).1

/-- C5: a progress event of type `text` renders as the `text` code `0`, a
colon and the JSON-encoded message string; a progress event of any other
type (the only other type is `data`) renders as its code `2`, a colon and
the JSON-encoded one-element array holding the full record; a stream event
that is not a progress event renders nothing.  Each rendered line ends in a
newline as the wire protocol requires. -/
theorem render_event_cases :
    (∀ s m, renderEvent (.progress ⟨.text, s, m⟩) =
      some ("0:" ++ jsonDumpsString m ++ "\n")) ∧
    (∀ s m, renderEvent (.progress ⟨.data, s, m⟩) =
      some ("2:" ++ jsonDumpsEventArray ⟨.data, s, m⟩ ++ "\n")) ∧
    (∀ t, renderEvent (.other t) = none) :=
  ⟨fun _ _ => rfl, fun _ _ => rfl, fun _ => rfl⟩

/-- C7: when the model's chunk stream is empty, the construction of the
final result after the streaming loop reads the unbound loop variable
(`NameError`); when it yields at least one chunk the construction is
well-defined and the response text is the accumulated message content of
the last chunk. -/
theorem synthesize_last_chunk :
    ∀ sp cp l mem ev,
      (l (historySent sp cp mem ev) = [] →
        (synthesize sp cp l mem ev).2 =
          .error "NameError: name 'chunk' is not defined") ∧
      (∀ last, (l (historySent sp cp mem ev)).getLast? = some last →
        (synthesize sp cp l mem ev).2 =
          .ok ⟨ev.query, historySent sp cp mem ev,
               last.message.content, ev.nodes⟩) := by
  intro sp cp l mem ev
  constructor
  · intro h
    simp [synthesize, h]
  · intro last h
    simp [synthesize, h]

/-- C7 witness: with a stream of one chunk the result is the chunk's
accumulated content; with an empty stream the result is the name error. -/
theorem synthesize_last_chunk_witness :
    (synthesize none "T" (fun _ => []) [] ⟨"q", []⟩).2 =
      .error "NameError: name 'chunk' is not defined" ∧
    (synthesize none "T" (fun _ => [⟨"Hi", ⟨.assistant, "Hi"⟩⟩]) [] ⟨"q", []⟩).2 =
      .ok ⟨"q", historySent none "T" [] ⟨"q", []⟩, "Hi", []⟩ :=
  ⟨(synthesize_last_chunk none "T" (fun _ => []) [] ⟨"q", []⟩).1 rfl,
   (synthesize_last_chunk none "T" (fun _ => [⟨"Hi", ⟨.assistant, "Hi"⟩⟩])
      [] ⟨"q", []⟩).2 ⟨"Hi", ⟨.assistant, "Hi"⟩⟩ rfl⟩

/-- C9: the history sent to the model carries a prepended system message
exactly when the configured system prompt is truthy (present and
non-empty); with no system prompt — and likewise with the falsy empty
string — the history is exactly the memory followed by the
context-augmented user turn, unchanged. -/
theorem system_prompt_prepended_iff :
    ∀ cp mem (ev : SynthesizeEvent),
      (∀ s, s ≠ "" →
        historySent (some s) cp mem ev =
          ⟨.system, s⟩ :: (mem ++ [⟨.user, contextQuery cp ev⟩])) ∧
      historySent none cp mem ev = mem ++ [⟨.user, contextQuery cp ev⟩] ∧
      historySent (some "") cp mem ev = mem ++ [⟨.user, contextQuery cp ev⟩] := by
  intro cp mem ev
  refine ⟨fun s hs => ?_, rfl, rfl⟩
  simp [historySent, truthy, hs]

/-- C9 witness: a concrete non-empty system prompt is prepended. -/
theorem system_prompt_prepended_iff_witness :
    historySent (some "SYS") "T" [] ⟨"q", []⟩ =
      [⟨.system, "SYS"⟩, ⟨.user, contextQuery "T" ⟨"q", []⟩⟩] := by
  have h := (system_prompt_prepended_iff "T" [] ⟨"q", []⟩).1 "SYS" (by decide)
  simpa using h

/-- When every poll of `is_disconnected` answers `false`, the generator's
loop renders every event (skipping non-progress ones) and exits normally. -/
theorem genLoop_no_disconnect (d : Nat → Bool) (hd : ∀ i, d i = false) :
    ∀ (evs : List StreamEvent) (i : Nat),
      genLoop d evs i = (evs.filterMap renderEvent, false) := by
  intro evs
  induction evs with
  | nil => intro i; rfl
  | cons e rest ih =>
    intro i
    simp only [genLoop, hd i, Bool.false_eq_true, if_false, ih (i + 1)]
    cases h : renderEvent e <;> simp [List.filterMap_cons, h]

/-- When the poll answers `false` for the first `k` events and `true` at the
`k`-th (with more events still pending), the loop renders exactly the first
`k` events and exits through `break`. -/
theorem genLoop_disconnect_at (d : Nat → Bool) :
    ∀ (evs : List StreamEvent) (k i : Nat),
      (∀ j, j < k → d (i + j) = false) → d (i + k) = true →
      k < evs.length →
      genLoop d evs i = ((evs.take k).filterMap renderEvent, true) := by
  intro evs
  induction evs with
  | nil => intro k i _ _ hk; simp at hk
  | cons e rest ih =>
    intro k i hb ha hk
    cases k with
    | zero =>
      have h0 : d i = true := by simpa using ha
      simp [genLoop, h0]
    | succ k' =>
      have h0 : d i = false := by simpa using hb 0 (Nat.succ_pos k')
      have hb' : ∀ j, j < k' → d (i + 1 + j) = false := by
        intro j hj
        have e1 : i + 1 + j = i + (j + 1) := by omega
        rw [e1]
        exact hb (j + 1) (by omega)
      have ha' : d (i + 1 + k') = true := by
        have e1 : i + 1 + k' = i + (k' + 1) := by omega
        rw [e1]; exact ha
      have hk' : k' < rest.length := by
        simp only [List.length_cons] at hk; omega
      have hrest := ih k' (i + 1) hb' ha' hk'
      simp only [genLoop, h0, Bool.false_eq_true, if_false, hrest]
      cases h : renderEvent e <;>
        simp [List.take_succ_cons, List.filterMap_cons, h]

/-- The summary line spelled out: the `data` code `2`, a colon, and the
plain-text token report. -/
theorem summaryLine_eq (est : List ChatMessage → Nat) (cnt : String → Nat)
    (fr : StopResult) :
    summaryLine est cnt fr =
      "2:Input tokens: " ++ toString (est fr.messages) ++
        ", output tokens: " ++ toString (cnt fr.response) ++ "\n" := by
  unfold summaryLine
  rw [show streamPartType "data" ++ ":Input tokens: " = "2:Input tokens: "
      from rfl]

/-- C8: on a run with no disconnect, after the event lines the generator
emits exactly one extra line — the `data` code, a colon, and the plain-text
summary `Input tokens: N, output tokens: M` where `N` is the token estimate
over the final message history and `M` the token count of the response
text. -/
theorem no_disconnect_final_summary :
    ∀ (d : Nat → Bool) (evs : List StreamEvent) est cnt fr,
      (∀ i, d i = false) →
      event_generator d evs est cnt (.ok fr) =
        .ok (evs.filterMap renderEvent ++
          ["2:Input tokens: " ++ toString (est fr.messages) ++
           ", output tokens: " ++ toString (cnt fr.response) ++ "\n"]) := by
  intro d evs est cnt fr hd
  simp only [event_generator, genLoop_no_disconnect d hd evs 0,
    summaryLine_eq]

/-- C8 witness: a concrete run with one text event and length-based token
counters yields the event line followed by the summary line. -/
theorem no_disconnect_final_summary_witness :
    event_generator (fun _ => false) [.progress ⟨.text, .loading, "Hi"⟩]
      (fun ms => ms.length) (fun s => s.length)
      (.ok ⟨"q", [⟨.user, "m"⟩], "resp", []⟩) =
      .ok ["0:\"Hi\"\n", "2:Input tokens: 1, output tokens: 4\n"] := by
  rw [no_disconnect_final_summary (fun _ => false)
    [.progress ⟨.text, .loading, "Hi"⟩] (fun ms => ms.length)
    (fun s => s.length) ⟨"q", [⟨.user, "m"⟩], "resp", []⟩ (fun _ => rfl)]
  rfl

/-- C1 counterexample: with five progress events pending and the connection
reported closed from the third poll on, the generator stops rendering after
two event lines — but its output still ends with the token-usage summary
line, so the final result was awaited and the summary was emitted; and when
the awaited handler fails, the error propagates out of the generator, which
also shows the generator awaits the final result after a disconnect. -/
theorem disconnect_cex :
    event_generator (fun n => decide (2 ≤ n))
      [.progress ⟨.data, .loading, "Retrieving relevant nodes..."⟩,
       .progress ⟨.data, .done, "Retrieved 3 relevant nodes for context."⟩,
       .progress ⟨.data, .loading, "Synthesizing response..."⟩,
       .progress ⟨.data, .done, "Finished creating response stream."⟩,
       .progress ⟨.text, .loading, "The"⟩]
      (fun ms => ms.length) (fun s => s.length)
      (.ok ⟨"q", [⟨.user, "hi"⟩], "resp", []⟩) =
      .ok ["2:[\x7b\"type\": \"data\", \"status\": \"loading\", \"message\": \"Retrieving relevant nodes...\"\x7d]\n",
           "2:[\x7b\"type\": \"data\", \"status\": \"done\", \"message\": \"Retrieved 3 relevant nodes for context.\"\x7d]\n",
           "2:Input tokens: 1, output tokens: 4\n"] ∧
    event_generator (fun n => decide (2 ≤ n))
      [.progress ⟨.data, .loading, "Retrieving relevant nodes..."⟩,
       .progress ⟨.data, .done, "Retrieved 3 relevant nodes for context."⟩,
       .progress ⟨.data, .loading, "Synthesizing response..."⟩,
       .progress ⟨.data, .done, "Finished creating response stream."⟩,
       .progress ⟨.text, .loading, "The"⟩]
      (fun ms => ms.length) (fun s => s.length)
      (.error "RetrievalError") = .error "RetrievalError" :=
  ⟨rfl, rfl⟩

/-- C1 (amended): when the poll reports the client disconnected at the
`k`-th pending event, the generator renders only the first `k` events and
consumes no further event — but the code after the loop still runs: the
final result is awaited (a handler error propagates) and on success the
token-usage summary line is still emitted after the truncated event
lines. -/
theorem disconnect_stops_events_not_summary :
    ∀ (d : Nat → Bool) (evs : List StreamEvent) (k : Nat) est cnt fr e,
      (∀ j, j < k → d j = false) → d k = true → k < evs.length →
      event_generator d evs est cnt (.ok fr) =
        .ok ((evs.take k).filterMap renderEvent ++ [summaryLine est cnt fr]) ∧
      event_generator d evs est cnt (.error e) = .error e := by
  intro d evs k est cnt fr e hb ha hk
  have hg := genLoop_disconnect_at d evs k 0
    (fun j hj => by simpa using hb j hj) (by simpa using ha) hk
  exact ⟨by simp only [event_generator, hg], rfl⟩

/-- C1 witness: the amended statement instantiated at a disconnect after
one of three events. -/
theorem disconnect_stops_events_not_summary_witness :
    event_generator (fun n => decide (1 ≤ n))
      [.progress ⟨.text, .loading, "a"⟩, .progress ⟨.text, .loading, "b"⟩,
       .progress ⟨.text, .loading, "c"⟩]
      (fun ms => ms.length) (fun s => s.length)
      (.ok ⟨"q", [], "r", []⟩) = .ok ["0:\"a\"\n", "2:Input tokens: 0, output tokens: 1\n"] ∧
    event_generator (fun n => decide (1 ≤ n))
      [.progress ⟨.text, .loading, "a"⟩, .progress ⟨.text, .loading, "b"⟩,
       .progress ⟨.text, .loading, "c"⟩]
      (fun ms => ms.length) (fun s => s.length)
      (.error "boom") = .error "boom" := by
  have h := disconnect_stops_events_not_summary (fun n => decide (1 ≤ n))
    [.progress ⟨.text, .loading, "a"⟩, .progress ⟨.text, .loading, "b"⟩,
     .progress ⟨.text, .loading, "c"⟩] 1
    (fun ms => ms.length) (fun s => s.length) ⟨"q", [], "r", []⟩ "boom"
    (by decide) (by decide) (by decide)
  exact ⟨by rw [h.1]; rfl, h.2⟩

/-- C2 counterexample: a completed run whose model streamed the assistant
text "Hi" produces a result whose `messages` field is the single
context-augmented user turn — the response text "Hi" is present, but no
message in the history has the assistant role, so the history does not
include the assistant's final message. -/
theorem result_messages_lack_assistant_cex :
    (run (fun _ => [⟨"ctx"⟩]) (fun _ => [⟨"Hi", ⟨.assistant, "Hi"⟩⟩]) none "T"
        ⟨some "q", some []⟩).2 =
      .ok ⟨"q", [⟨.user, "T"⟩], "Hi", [⟨"ctx"⟩]⟩ ∧
    (([⟨.user, "T"⟩] : List ChatMessage).all
      fun m => !(m.role == .assistant)) = true :=
  ⟨rfl, rfl⟩

/-- C2 (amended): on stream exhaustion with at least one chunk, the run's
terminal result holds the query, the message history exactly as it was sent
to the model (memory plus the context-augmented user turn, with the
optional system message — the assistant's final message is not part of it),
the full response text (the last chunk's accumulated message content), and
the source nodes. -/
theorem run_result_contents :
    ∀ r l sp cp q ms last,
      (l (historySent sp cp ms ⟨q, r q⟩)).getLast? = some last →
      (run r l sp cp ⟨some q, some ms⟩).2 =
        .ok ⟨q, historySent sp cp ms ⟨q, r q⟩, last.message.content, r q⟩ := by
  intro r l sp cp q ms last h
  simp [run, setup, retrieve, post_process, synthesize, h]

/-- C2 witness: the amended statement instantiated at a one-chunk stream. -/
theorem run_result_contents_witness :
    (run (fun _ => [⟨"node"⟩]) (fun _ => [⟨"Ok", ⟨.assistant, "Ok"⟩⟩]) none "T"
        ⟨some "q", some [⟨.user, "before"⟩]⟩).2 =
      .ok ⟨"q", historySent none "T" [⟨.user, "before"⟩] ⟨"q", [⟨"node"⟩]⟩,
           "Ok", [⟨"node"⟩]⟩ :=
  run_result_contents (fun _ => [⟨"node"⟩])
    (fun _ => [⟨"Ok", ⟨.assistant, "Ok"⟩⟩]) none "T" "q" [⟨.user, "before"⟩]
    ⟨"Ok", ⟨.assistant, "Ok"⟩⟩ rfl

/-- C6: on every run started with present query and messages, the emitted
progress events are, in order: the Retrieve loading event, then its done
event, then the Synthesize loading event, then the Synthesize done event,
and only then the text chunk events — so retrieval's loading strictly
precedes its done, and synthesis's loading/done pair strictly precedes
every text chunk. -/
theorem run_event_order :
    ∀ r l sp cp q ms,
      (run r l sp cp ⟨some q, some ms⟩).1 =
        ⟨.data, .loading, "Retrieving relevant nodes..."⟩ ::
        ⟨.data, .done, "Retrieved " ++ toString (r q).length ++
          " relevant nodes for context."⟩ ::
        ⟨.data, .loading, "Synthesizing response..."⟩ ::
        ⟨.data, .done, "Finished creating response stream."⟩ ::
        (l (historySent sp cp ms ⟨q, r q⟩)).map
          (fun c => ⟨.text, .loading, c.delta⟩) ∧
      ((l (historySent sp cp ms ⟨q, r q⟩)).map
          (fun c => (⟨.text, .loading, c.delta⟩ : ProgressEvent))).all
        (fun ev => ev.type == .text) = true := by
  intro r l sp cp q ms
  refine ⟨rfl, ?_⟩
  simp [List.all_eq_true]

/-- C10: in the full event trace of any run, every `text`-typed event has
status `loading`, and every `done`-status event has type `data`. -/
theorem trace_type_status_invariant :
    ∀ r l sp cp sv,
      ((run r l sp cp sv).1.all fun ev =>
        decide ((ev.type = .text → ev.status = .loading) ∧
                (ev.status = .done → ev.type = .data))) = true := by
  intro r l sp cp sv
  obtain ⟨q, ms⟩ := sv
  cases q with
  | none => rfl
  | some q =>
    cases ms with
    | none => rfl
    | some ms =>
      simp [run, setup, retrieve, post_process, synthesize,
        List.all_eq_true]

end RagStream
